import Mathlib

/-!
Shallow embedding of `src/error.c` (the whole repository): a diagnostic
output facility consisting of a lazy configuration gate
(`check_params_loaded`) and six output functions (`error`, `warning`,
`debug`, `help`, `progress`, `progress_meter`).

Modelling choices, all taken from the source:
* The single output stream (`ERR_STREAM`) is modelled as an ordered trace
  of events (`Out`).  `Out.write s` records a `vfprintf`/`fprintf` call
  whose emitted text is `s` (the format arguments already substituted);
  `Out.writeFmt f` records the one call `fprintf(ERR_STREAM, buf)` in
  `progress_meter`, which passes the assembled buffer as the FORMAT
  argument of `fprintf` with no varargs; `Out.flush` records
  `fflush(NULL)`; `Out.usage` records the call to the external
  `Print_Argument_Usage` collaborator.
* Process-global state (`St`): the flag `_g_params_inited` (field
  `inited`), the output trace, and two counters recording how many times
  the external collaborators `Load_Params_File` and `Print_Params_File`
  have been invoked.
* The environment (`Env`) holds the external world: the result of the
  i-th `Load_Params_File` call (`true` = success, i.e. the C function
  returned 0), and the two globals `SHOW_DEBUG_MESSAGES` and
  `SHOW_PROGRESS_MESSAGES` that a successful load would leave in place
  (the facility only reads them after the gate, so they are modelled as
  fixed booleans).
* Process termination (`exit`) is modelled by the `Outcome` type: every
  function returns `Outcome.normal` or `Outcome.exited code`.
* The C `double` arguments of `progress_meter` are modelled as exact
  rationals, and the C cast `(int)` (truncation toward zero) as `ctrunc`.
-/

namespace Whisk

/-- Events observable on the process-wide output stream, in order. -/
inductive Out where
  | write (s : String)
  | writeFmt (fmt : String)
  | usage
  | flush
deriving DecidableEq

/-- How a call to one of the facility functions ends: a normal return, or
process termination with the given exit code. -/
inductive Outcome where
  | normal
  | exited (code : Int)
deriving DecidableEq

/-- Process-global state: the `_g_params_inited` flag (`inited`), the
number of calls made so far to the external collaborators
`Load_Params_File` (`loadCalls`) and `Print_Params_File` (`printCalls`),
and the output trace. -/
structure St where
  inited : Bool
  loadCalls : Nat
  printCalls : Nat
  out : List Out
deriving DecidableEq

/-- The external world: `loadOk i` is the success of the i-th call to
`Load_Params_File` (`true` means the C function returned 0), and the two
configuration flags consulted after the gate. -/
structure Env where
  loadOk : Nat → Bool
  showDebug : Bool
  showProgress : Bool

/-- Append one event to the output trace. -/
def emit (s : St) (e : Out) : St :=
  { s with out := s.out ++ [e] }

/-- Collaborator `Load_Params_File`: returns success according to the
environment oracle and counts the invocation.  In the C source a nonzero
return means failure; here `true` means success. -/
def Load_Params_File (env : Env) (s : St) : Bool × St :=
  (env.loadOk s.loadCalls, { s with loadCalls := s.loadCalls + 1 })

/-- Collaborator `Print_Params_File`: writes a default configuration file
(no stream output); only the invocation count is observable here. -/
def Print_Params_File (s : St) : St :=
  { s with printCalls := s.printCalls + 1 }

/-- The well-known configuration source, `char f[] = "default.parameters"`. -/
def paramsFileName : String := "default.parameters"

/-- Formatted text of the first warning in `check_params_loaded` (the
format string with `%s` twice substituted by the file name). -/
def loadFailMsg : String :=
  "Make sure " ++ paramsFileName ++ " is in the calling directory\n" ++
  "Could not load parameters from file: " ++ paramsFileName ++ "\n" ++
  "Writing defaults to current directory.\n\tTrying again...\n"

/-- Formatted text of the second warning in `check_params_loaded`. -/
def retryFailMsg : String := "\tStill couldn\x27t load parameters from file.\n"

/-- Embeds `warning`: writes the fixed text `"--- Warning: "`, then the
formatted message, then flushes; always returns normally. -/
def warning (s : St) (msg : String) : St :=
  emit (emit (emit s (Out.write "--- Warning: ")) (Out.write msg)) Out.flush

/-- Trace appended by one `warning` call; used to state gate properties. -/
def warnTrace (msg : String) : List Out :=
  [Out.write "--- Warning: ", Out.write msg, Out.flush]

/-- Embeds `check_params_loaded`, the lazy configuration gate.  The C
code tests `if(Load_Params_File(f))`, whose nonzero (failure) branch
warns, writes defaults via `Print_Params_File`, retries the load once,
and on a second failure warns again and returns 0 without setting
`_g_params_inited`; every other path returns 1, setting the flag. -/
def check_params_loaded (env : Env) (s : St) : Bool × St :=
  if s.inited = false then
    let r1 := Load_Params_File env s
    if r1.1 = false then
      let s2 := warning r1.2 loadFailMsg
      let s3 := Print_Params_File s2
      let r2 := Load_Params_File env s3
      if r2.1 = false then
        (false, warning r2.2 retryFailMsg)
      else
        (true, { r2.2 with inited := true })
    else
      (true, { r1.2 with inited := true })
  else
    (true, s)

/-- Embeds `error`: writes `"*** ERROR: "`, then the formatted message,
flushes everything, and exits with status -1. -/
def error (s : St) (msg : String) : St × Outcome :=
  (emit (emit (emit s (Out.write "*** ERROR: ")) (Out.write msg)) Out.flush,
   Outcome.exited (-1))

/-- Embeds `debug`: emits the raw formatted message only when the gate
returns 1 and `SHOW_DEBUG_MESSAGES` holds, and always flushes. -/
def debug (env : Env) (s : St) (msg : String) : St × Outcome :=
  let r := check_params_loaded env s
  let s2 := if (r.1 && env.showDebug) = true then emit r.2 (Out.write msg) else r.2
  (emit s2 Out.flush, Outcome.normal)

/-- Embeds `help`: nothing happens unless `show` is nonzero; otherwise
the usage banner is printed by the external collaborator, the message is
written, the streams are flushed, and the process exits with status 0. -/
def help (s : St) (showArg : Bool) (msg : String) : St × Outcome :=
  if showArg then
    (emit (emit (emit s Out.usage) (Out.write msg)) Out.flush, Outcome.exited 0)
  else
    (s, Outcome.normal)

/-- Embeds `progress`: same shape as `debug`, gated on
`SHOW_PROGRESS_MESSAGES`. -/
def progress (env : Env) (s : St) (msg : String) : St × Outcome :=
  let r := check_params_loaded env s
  let s2 := if (r.1 && env.showProgress) = true then emit r.2 (Out.write msg) else r.2
  (emit s2 Out.flush, Outcome.normal)

/-- C cast of a real value to `int`: truncation toward zero.  For an
exact rational this is t-division of the numerator by the denominator. -/
def ctrunc (q : ℚ) : ℤ := q.num.tdiv q.den

/-- The two loop bounds computed by `progress_meter` after the caption
and the opening bracket have been written: first
`len -= (n-1)` leaves `len - (1 + captionLen)` (the carriage return is
not charged against the width), then `int nc = (len)*(cur-min)/(max-min)`
and `len -= (nc+1)`.  Returns `(nc, len)` at the start of the two
`while (x-- > 0)` loops. -/
def meterCounts (cur mn mx : ℚ) (len : ℤ) (captionLen : ℕ) : ℤ × ℤ :=
  let len1 : ℤ := len - (1 + (captionLen : ℤ))
  let nc : ℤ := ctrunc ((len1 : ℚ) * (cur - mn) / (mx - mn))
  (nc, len1 - (nc + 1))

/-- A run of `k` copies of `c`, as produced by a `while (k-- > 0)` loop:
a nonpositive bound produces the empty string. -/
def strRep (c : Char) (k : ℤ) : String :=
  String.mk (List.replicate k.toNat c)

/-- The buffer `buf` assembled by `progress_meter`: carriage return,
caption, opening bracket, `|` run, `-` run, closing bracket, carriage
return (no newline). -/
def assembleMeter (cur mn mx : ℚ) (len : ℤ) (caption : String) : String :=
  "\r" ++ caption ++ "[" ++
    strRep '|' (meterCounts cur mn mx len caption.length).1 ++
    strRep '-' (meterCounts cur mn mx len caption.length).2 ++ "]\r"

/-- Embeds `progress_meter`: when the gate returns 1 and
`SHOW_PROGRESS_MESSAGES` holds, the assembled buffer is handed to
`fprintf(ERR_STREAM, buf)` as the FORMAT argument (event
`Out.writeFmt`), then `fflush(NULL)` runs; otherwise the function body
does nothing after the gate. -/
def progress_meter (env : Env) (s : St) (cur mn mx : ℚ) (len : ℤ)
    (caption : String) : St × Outcome :=
  let r := check_params_loaded env s
  if (r.1 && env.showProgress) = true then
    (emit (emit r.2 (Out.writeFmt (assembleMeter cur mn mx len caption))) Out.flush,
     Outcome.normal)
  else
    (r.2, Outcome.normal)

/-- Text actually produced by `fprintf(stream, fmt)` when NO variadic
arguments are supplied: literal characters pass through, `%%` prints one
percent sign, and any other conversion specification consumes a missing
argument, which is undefined behavior (`none`). -/
def printfRender : List Char → Option (List Char)
  | [] => some []
  | c :: rest =>
    if c = '%' then
      match rest with
      | [] => none
      | d :: rest2 =>
        if d = '%' then Option.map (fun l => '%' :: l) (printfRender rest2)
        else none
    else Option.map (fun l => c :: l) (printfRender rest)

/-- String version of `printfRender`. -/
def printfNoArgs (s : String) : Option String :=
  Option.map String.mk (printfRender s.data)

/-- One invocation of a gated function, for stating properties of call
sequences. -/
inductive Call where
  | dbg (msg : String)
  | prog (msg : String)
  | meter (cur mn mx : ℚ) (len : ℤ) (caption : String)

/-- State reached after one gated call (none of the three terminates). -/
def stepCall (env : Env) (s : St) : Call → St
  | Call.dbg msg => (debug env s msg).1
  | Call.prog msg => (progress env s msg).1
  | Call.meter cur mn mx len caption => (progress_meter env s cur mn mx len caption).1

/-- State reached after a sequence of gated calls. -/
def runCalls (env : Env) (s : St) : List Call → St
  | [] => s
  | c :: cs => runCalls env (stepCall env s c) cs

/-- Fresh process state: gate never attempted, nothing written. -/
def stInit : St := { inited := false, loadCalls := 0, printCalls := 0, out := [] }

/-- State after one successful initialization. -/
def stInited : St := { inited := true, loadCalls := 1, printCalls := 0, out := [] }

/-- Environment whose parameters file never loads. -/
def envFailAll : Env :=
  { loadOk := fun _ => false, showDebug := true, showProgress := true }

/-- Environment whose parameters file always loads, all flags on. -/
def envOkAll : Env :=
  { loadOk := fun _ => true, showDebug := true, showProgress := true }

/-- Environment with a working parameters file and progress disabled. -/
def envNoProg : Env :=
  { loadOk := fun _ => true, showDebug := false, showProgress := false }

/-! Helper lemmas about `ctrunc`, the C truncation of an exact rational. -/

lemma ctrunc_of_nonneg {q : ℚ} (h : 0 ≤ q) : ctrunc q = ⌊q⌋ := by
  rw [ctrunc, Int.tdiv_eq_ediv (Rat.num_nonneg.2 h) (Int.ofNat_nonneg _), Rat.floor_def]

lemma ctrunc_neg (q : ℚ) : ctrunc (-q) = -ctrunc q := by
  rw [ctrunc, ctrunc, Rat.neg_num, Rat.neg_den, Int.neg_tdiv]

lemma ctrunc_of_nonpos {q : ℚ} (h : q ≤ 0) : ctrunc q = ⌈q⌉ := by
  have h1 : ctrunc (-q) = ⌊-q⌋ := ctrunc_of_nonneg (neg_nonneg.2 h)
  have h2 : ctrunc (-q) = -ctrunc q := ctrunc_neg q
  have h3 : ⌈-(-q)⌉ = -⌊-q⌋ := Int.ceil_neg
  rw [neg_neg] at h3
  omega

lemma ctrunc_intCast (n : ℤ) : ctrunc ((n : ℤ) : ℚ) = n := by
  rw [ctrunc, Rat.intCast_num, Rat.intCast_den]
  simp

lemma ctrunc_nonneg {q : ℚ} (h : 0 ≤ q) : 0 ≤ ctrunc q := by
  rw [ctrunc_of_nonneg h]
  exact Int.floor_nonneg.2 h

lemma ctrunc_nonpos {q : ℚ} (h : q ≤ 0) : ctrunc q ≤ 0 := by
  rw [ctrunc_of_nonpos h]
  exact Int.ceil_le.2 (by exact_mod_cast h)

lemma ctrunc_le_intCast {q : ℚ} {n : ℤ} (hq : 0 ≤ q) (h : q ≤ (n : ℚ)) :
    ctrunc q ≤ n := by
  rw [ctrunc_of_nonneg hq]
  calc ⌊q⌋ ≤ ⌊(n : ℚ)⌋ := Int.floor_mono h
    _ = n := Int.floor_intCast n

lemma intCast_le_ctrunc {q : ℚ} {n : ℤ} (hq : q ≤ 0) (h : (n : ℚ) ≤ q) :
    n ≤ ctrunc q := by
  rw [ctrunc_of_nonpos hq]
  calc n = ⌈(n : ℚ)⌉ := (Int.ceil_intCast n).symm
    _ ≤ ⌈q⌉ := Int.ceil_mono h

/-! Helper lemmas about the configuration gate and the traced functions. -/

lemma check_inited {env : Env} {s : St} (h : s.inited = true) :
    check_params_loaded env s = (true, s) := by
  rw [check_params_loaded]
  simp [h]

lemma check_first_ok {env : Env} {s : St} (h : s.inited = false)
    (h1 : env.loadOk s.loadCalls = true) :
    check_params_loaded env s =
      (true, { s with inited := true, loadCalls := s.loadCalls + 1 }) := by
  obtain ⟨i, lc, pc, o⟩ := s
  simp only [St.inited] at h
  subst h
  simp [check_params_loaded, Load_Params_File, h1]

lemma check_retry_ok {env : Env} {s : St} (h : s.inited = false)
    (h1 : env.loadOk s.loadCalls = false) (h2 : env.loadOk (s.loadCalls + 1) = true) :
    check_params_loaded env s =
      (true, { s with
                 inited := true, loadCalls := s.loadCalls + 2,
                 printCalls := s.printCalls + 1,
                 out := s.out ++ warnTrace loadFailMsg }) := by
  obtain ⟨i, lc, pc, o⟩ := s
  simp only [St.inited] at h
  subst h
  simp only [St.loadCalls] at h1 h2
  simp [check_params_loaded, Load_Params_File, Print_Params_File, warning, warnTrace,
    emit, h1, h2]

lemma check_retry_fail {env : Env} {s : St} (h : s.inited = false)
    (h1 : env.loadOk s.loadCalls = false) (h2 : env.loadOk (s.loadCalls + 1) = false) :
    check_params_loaded env s =
      (false, { s with
                  loadCalls := s.loadCalls + 2,
                  printCalls := s.printCalls + 1,
                  out := s.out ++ warnTrace loadFailMsg ++ warnTrace retryFailMsg }) := by
  obtain ⟨i, lc, pc, o⟩ := s
  simp only [St.inited] at h
  subst h
  simp only [St.loadCalls] at h1 h2
  simp [check_params_loaded, Load_Params_File, Print_Params_File, warning, warnTrace,
    emit, h1, h2, List.append_assoc]

lemma debug_eq (env : Env) (s : St) (msg : String) :
    debug env s msg =
      (emit (if ((check_params_loaded env s).1 && env.showDebug) = true
             then emit (check_params_loaded env s).2 (Out.write msg)
             else (check_params_loaded env s).2) Out.flush,
       Outcome.normal) := rfl

lemma progress_eq (env : Env) (s : St) (msg : String) :
    progress env s msg =
      (emit (if ((check_params_loaded env s).1 && env.showProgress) = true
             then emit (check_params_loaded env s).2 (Out.write msg)
             else (check_params_loaded env s).2) Out.flush,
       Outcome.normal) := rfl

lemma debug_out (env : Env) (s : St) (msg : String) :
    (debug env s msg).1.out =
      (check_params_loaded env s).2.out ++
        (if ((check_params_loaded env s).1 && env.showDebug) = true
         then [Out.write msg] else []) ++ [Out.flush] := by
  rw [debug_eq]
  by_cases h : ((check_params_loaded env s).1 && env.showDebug) = true <;>
    simp [h, emit]

lemma progress_out (env : Env) (s : St) (msg : String) :
    (progress env s msg).1.out =
      (check_params_loaded env s).2.out ++
        (if ((check_params_loaded env s).1 && env.showProgress) = true
         then [Out.write msg] else []) ++ [Out.flush] := by
  rw [progress_eq]
  by_cases h : ((check_params_loaded env s).1 && env.showProgress) = true <;>
    simp [h, emit]

/-! Helper lemmas about the assembled progress bar. -/

lemma data_cr : "\r".data = ['\r'] := rfl

lemma data_length (s : String) : s.data.length = s.length := rfl

lemma assembleMeter_data (cur mn mx : ℚ) (len : ℤ) (caption : String) :
    (assembleMeter cur mn mx len caption).data =
      '\r' :: (caption.data ++
        ('[' :: (List.replicate (meterCounts cur mn mx len caption.length).1.toNat '|' ++
          (List.replicate (meterCounts cur mn mx len caption.length).2.toNat '-' ++
            [']', '\r'])))) := by
  simp [assembleMeter, strRep, String.data_append, data_cr]

lemma assembleMeter_length (cur mn mx : ℚ) (len : ℤ) (caption : String) :
    (assembleMeter cur mn mx len caption).length =
      caption.length + (meterCounts cur mn mx len caption.length).1.toNat +
        (meterCounts cur mn mx len caption.length).2.toNat + 4 := by
  rw [← data_length, assembleMeter_data]
  simp [List.length_append, data_length]
  omega

lemma assembleMeter_count_bar (cur mn mx : ℚ) (len : ℤ) (caption : String) :
    (assembleMeter cur mn mx len caption).data.count '|' =
      (meterCounts cur mn mx len caption.length).1.toNat + caption.data.count '|' := by
  rw [assembleMeter_data]
  simp [List.count_append, List.count_cons, List.count_replicate]
  omega

lemma meterCounts_eval {cur mn mx : ℚ} {len : ℤ} {c : ℕ} {v : ℤ}
    (h : ((len : ℚ) - (1 + (c : ℚ))) * (cur - mn) / (mx - mn) = ((v : ℤ) : ℚ)) :
    meterCounts cur mn mx len c = (v, len - (1 + (c : ℤ)) - (v + 1)) := by
  simp [meterCounts, h, ctrunc_intCast]

lemma meterCounts_fst (cur mn mx : ℚ) (len : ℤ) (c : ℕ) :
    (meterCounts cur mn mx len c).1 =
      ctrunc (((len - (1 + (c : ℤ)) : ℤ) : ℚ) * (cur - mn) / (mx - mn)) := rfl

lemma meterCounts_snd (cur mn mx : ℚ) (len : ℤ) (c : ℕ) :
    (meterCounts cur mn mx len c).2 =
      len - (1 + (c : ℤ)) - ((meterCounts cur mn mx len c).1 + 1) := rfl

lemma meter_ratio_nonneg {cur mn mx : ℚ} (h1 : mn < mx) (h2 : mn ≤ cur) :
    0 ≤ (cur - mn) / (mx - mn) :=
  div_nonneg (sub_nonneg.2 h2) (sub_pos.2 h1).le

lemma meter_ratio_le_one {cur mn mx : ℚ} (h1 : mn < mx) (h3 : cur ≤ mx) :
    (cur - mn) / (mx - mn) ≤ 1 :=
  (div_le_one (sub_pos.2 h1)).2 (sub_le_sub_right h3 mn)

lemma meter_nc_nonneg {cur mn mx : ℚ} {len : ℤ} {c : ℕ}
    (h1 : mn < mx) (h2 : mn ≤ cur) (hR : 0 ≤ len - (1 + (c : ℤ))) :
    0 ≤ (meterCounts cur mn mx len c).1 := by
  rw [meterCounts_fst]
  refine ctrunc_nonneg ?_
  rw [mul_div_assoc]
  exact mul_nonneg (by exact_mod_cast hR) (meter_ratio_nonneg h1 h2)

lemma meter_nc_le {cur mn mx : ℚ} {len : ℤ} {c : ℕ}
    (h1 : mn < mx) (h2 : mn ≤ cur) (h3 : cur ≤ mx) (hR : 0 ≤ len - (1 + (c : ℤ))) :
    (meterCounts cur mn mx len c).1 ≤ len - (1 + (c : ℤ)) := by
  rw [meterCounts_fst]
  have hq : 0 ≤ (((len - (1 + (c : ℤ)) : ℤ) : ℚ)) * (cur - mn) / (mx - mn) := by
    rw [mul_div_assoc]
    exact mul_nonneg (by exact_mod_cast hR) (meter_ratio_nonneg h1 h2)
  refine ctrunc_le_intCast hq ?_
  rw [mul_div_assoc]
  exact mul_le_of_le_one_right (by exact_mod_cast hR) (meter_ratio_le_one h1 h3)

lemma meter_nc_nonpos {cur mn mx : ℚ} {len : ℤ} {c : ℕ}
    (h1 : mn < mx) (h2 : mn ≤ cur) (hR : len - (1 + (c : ℤ)) ≤ 0) :
    (meterCounts cur mn mx len c).1 ≤ 0 := by
  rw [meterCounts_fst]
  refine ctrunc_nonpos ?_
  rw [mul_div_assoc]
  exact mul_nonpos_of_nonpos_of_nonneg (by exact_mod_cast hR) (meter_ratio_nonneg h1 h2)

lemma meter_R_le_nc {cur mn mx : ℚ} {len : ℤ} {c : ℕ}
    (h1 : mn < mx) (h2 : mn ≤ cur) (h3 : cur ≤ mx) (hR : len - (1 + (c : ℤ)) ≤ 0) :
    len - (1 + (c : ℤ)) ≤ (meterCounts cur mn mx len c).1 := by
  rw [meterCounts_fst]
  have hq : (((len - (1 + (c : ℤ)) : ℤ) : ℚ)) * (cur - mn) / (mx - mn) ≤ 0 := by
    rw [mul_div_assoc]
    exact mul_nonpos_of_nonpos_of_nonneg (by exact_mod_cast hR) (meter_ratio_nonneg h1 h2)
  refine intCast_le_ctrunc hq ?_
  rw [mul_div_assoc]
  have := mul_le_mul_of_nonpos_left (meter_ratio_le_one h1 h3)
    (by exact_mod_cast hR : (((len - (1 + (c : ℤ)) : ℤ) : ℚ)) ≤ 0)
  simpa using this

lemma progress_meter_eq (env : Env) (s : St) (cur mn mx : ℚ) (len : ℤ)
    (caption : String) :
    progress_meter env s cur mn mx len caption =
      if ((check_params_loaded env s).1 && env.showProgress) = true
      then (emit (emit (check_params_loaded env s).2
              (Out.writeFmt (assembleMeter cur mn mx len caption))) Out.flush,
            Outcome.normal)
      else ((check_params_loaded env s).2, Outcome.normal) := rfl

lemma stepCall_fields (env : Env) (s : St) (c : Call) :
    (stepCall env s c).inited = (check_params_loaded env s).2.inited ∧
    (stepCall env s c).loadCalls = (check_params_loaded env s).2.loadCalls := by
  cases c with
  | dbg msg =>
    simp only [stepCall]
    rw [debug_eq]
    by_cases h : ((check_params_loaded env s).1 && env.showDebug) = true <;>
      simp [h, emit]
  | prog msg =>
    simp only [stepCall]
    rw [progress_eq]
    by_cases h : ((check_params_loaded env s).1 && env.showProgress) = true <;>
      simp [h, emit]
  | meter cur mn mx len caption =>
    simp only [stepCall]
    rw [progress_meter_eq]
    by_cases h : ((check_params_loaded env s).1 && env.showProgress) = true <;>
      simp [h, emit]

lemma gate_call_inv (env : Env) (hAll : ∀ n, env.loadOk n = true) (s : St) (c : Call)
    (h : (s.inited = false ∧ s.loadCalls = 0) ∨ (s.inited = true ∧ s.loadCalls ≤ 1)) :
    ((stepCall env s c).inited = false ∧ (stepCall env s c).loadCalls = 0) ∨
      ((stepCall env s c).inited = true ∧ (stepCall env s c).loadCalls ≤ 1) := by
  have hs := stepCall_fields env s c
  obtain ⟨hf, hl⟩ | ⟨ht, hl⟩ := h
  · right
    rw [check_first_ok hf (hAll s.loadCalls)] at hs
    refine ⟨hs.1, ?_⟩
    rw [hs.2]
    show s.loadCalls + 1 ≤ 1
    omega
  · right
    rw [check_inited ht] at hs
    exact ⟨hs.1.trans ht, hs.2 ▸ hl⟩

lemma runCalls_inv (env : Env) (hAll : ∀ n, env.loadOk n = true) :
    ∀ (cs : List Call) (s : St),
      ((s.inited = false ∧ s.loadCalls = 0) ∨ (s.inited = true ∧ s.loadCalls ≤ 1)) →
      (((runCalls env s cs).inited = false ∧ (runCalls env s cs).loadCalls = 0) ∨
        ((runCalls env s cs).inited = true ∧ (runCalls env s cs).loadCalls ≤ 1))
  | [], _, h => h
  | c :: cs, s, h => runCalls_inv env hAll cs (stepCall env s c) (gate_call_inv env hAll s c h)

/-! The claims. -/

/-- C1 (amended): `debug` and `progress` return normally, append exactly the
configuration gate output, then the formatted message precisely when the gate
returned 1 and the corresponding flag is set, then one flush.  In particular
before the gate has ever succeeded the message itself is never emitted; the
only possible output is the gate warning traffic. -/
theorem debug_progress_gated_output (env : Env) (s : St) (msg : String) :
    (debug env s msg).2 = Outcome.normal ∧
    (debug env s msg).1.out =
      (check_params_loaded env s).2.out ++
        (if ((check_params_loaded env s).1 && env.showDebug) = true
         then [Out.write msg] else []) ++ [Out.flush] ∧
    (progress env s msg).2 = Outcome.normal ∧
    (progress env s msg).1.out =
      (check_params_loaded env s).2.out ++
        (if ((check_params_loaded env s).1 && env.showProgress) = true
         then [Out.write msg] else []) ++ [Out.flush] :=
  ⟨rfl, debug_out env s msg, rfl, progress_out env s msg⟩

/-- C1 counterexample: in a fresh state whose parameters file never loads, the
gate never succeeds, yet one `debug` or `progress` call produces output (the
gate warnings), contradicting the claim that no output is produced before the
gate has ever succeeded. -/
theorem debug_no_output_before_gate_cx :
    (check_params_loaded envFailAll stInit).1 = false ∧
    (check_params_loaded envFailAll stInit).2.inited = false ∧
    (debug envFailAll stInit "x").1.out ≠ [] ∧
    (progress envFailAll stInit "y").1.out ≠ [] := by decide

/-- C2: behaviour of the uninitialized gate: a successful first load sets the
flag; a failing first load warns, writes the default configuration and retries
exactly once; a failing retry warns again and returns 0 with the flag still
unset. -/
theorem check_params_loaded_spec (env : Env) (s : St) (h : s.inited = false) :
    (env.loadOk s.loadCalls = true →
      check_params_loaded env s =
        (true, { s with inited := true, loadCalls := s.loadCalls + 1 })) ∧
    (env.loadOk s.loadCalls = false → env.loadOk (s.loadCalls + 1) = true →
      check_params_loaded env s =
        (true, { s with
                   inited := true, loadCalls := s.loadCalls + 2,
                   printCalls := s.printCalls + 1,
                   out := s.out ++ warnTrace loadFailMsg })) ∧
    (env.loadOk s.loadCalls = false → env.loadOk (s.loadCalls + 1) = false →
      check_params_loaded env s =
        (false, { s with
                    loadCalls := s.loadCalls + 2,
                    printCalls := s.printCalls + 1,
                    out := s.out ++ warnTrace loadFailMsg ++ warnTrace retryFailMsg }) ∧
      (check_params_loaded env s).2.inited = false) :=
  ⟨fun h1 => check_first_ok h h1,
   fun h1 h2 => check_retry_ok h h1 h2,
   fun h1 h2 => ⟨check_retry_fail h h1 h2, by rw [check_retry_fail h h1 h2]; exact h⟩⟩

/-- C2 witness at a concrete environment whose loads always fail. -/
theorem check_params_loaded_spec_witness :
    stInit.inited = false ∧
    envFailAll.loadOk stInit.loadCalls = false ∧
    envFailAll.loadOk (stInit.loadCalls + 1) = false ∧
    (check_params_loaded envFailAll stInit =
      (false, { stInit with
                  loadCalls := stInit.loadCalls + 2,
                  printCalls := stInit.printCalls + 1,
                  out := stInit.out ++ warnTrace loadFailMsg ++ warnTrace retryFailMsg }) ∧
     (check_params_loaded envFailAll stInit).2.inited = false) :=
  ⟨rfl, rfl, rfl, (check_params_loaded_spec envFailAll stInit rfl).2.2 rfl rfl⟩

/-- C3 (amended): once initialization has succeeded the gate returns 1 at once
and changes nothing, and as long as every load attempt succeeds the external
loader is invoked at most once across any sequence of gated calls.  (When a
load attempt fails, the failing call itself already invokes the loader twice,
and later calls retry; see the counterexample.) -/
theorem gate_loads_at_most_once :
    (∀ env : Env, ∀ s : St, s.inited = true → check_params_loaded env s = (true, s)) ∧
    (∀ env : Env, ∀ cs : List Call, (∀ n, env.loadOk n = true) →
      (runCalls env stInit cs).loadCalls ≤ 1) :=
  ⟨fun _ _ h => check_inited h,
   fun env cs hAll => by
    rcases runCalls_inv env hAll cs stInit (Or.inl ⟨rfl, rfl⟩) with ⟨_, h0⟩ | ⟨_, h1⟩
    · omega
    · exact h1⟩

/-- C3 counterexample: with a parameters file that never loads, a single
`debug` call already invokes the external loader twice, so the loader is not
invoked at most once per process. -/
theorem gate_loads_at_most_once_cx :
    ¬ (runCalls envFailAll stInit [Call.dbg "x"]).loadCalls ≤ 1 := by decide

/-- C3 witness: an initialized state is left untouched, and with an always
succeeding loader a three-call sequence performs at most one load. -/
theorem gate_loads_at_most_once_witness :
    stInited.inited = true ∧
    check_params_loaded envOkAll stInited = (true, stInited) ∧
    (runCalls envOkAll stInit
      [Call.dbg "a", Call.prog "b", Call.meter 1 0 2 10 "c"]).loadCalls ≤ 1 :=
  ⟨rfl, gate_loads_at_most_once.1 envOkAll stInited rfl,
   gate_loads_at_most_once.2 envOkAll
     [Call.dbg "a", Call.prog "b", Call.meter 1 0 2 10 "c"] (fun _ => rfl)⟩

/-- C6: `error` writes the fixed text `"*** ERROR: "` and the message, flushes,
and terminates with the non-zero status -1; it never returns normally. -/
theorem error_spec (s : St) (msg : String) :
    error s msg =
      ({ s with out := s.out ++ [Out.write "*** ERROR: ", Out.write msg, Out.flush] },
       Outcome.exited (-1)) ∧
    (error s msg).2 ≠ Outcome.normal ∧
    (error s msg).2 ≠ Outcome.exited 0 := by
  refine ⟨?_, ?_, ?_⟩
  · obtain ⟨i, lc, pc, o⟩ := s
    simp [error, emit]
  · simp [error]
  · simp [error]

/-- C7: `help` with a false flag is a complete no-op returning normally; with a
true flag it prints the usage banner, then the message, flushes, and exits with
status 0. -/
theorem help_spec (s : St) (msg : String) :
    help s false msg = (s, Outcome.normal) ∧
    help s true msg =
      ({ s with out := s.out ++ [Out.usage, Out.write msg, Out.flush] },
       Outcome.exited 0) := by
  refine ⟨rfl, ?_⟩
  obtain ⟨i, lc, pc, o⟩ := s
  simp [help, emit]

/-- C10 (amended): when the gate returns 0 or the progress flag is off,
`progress_meter` adds nothing beyond the gate output itself and performs no
flush of its own; if moreover the gate was already initialized it is a complete
no-op.  `debug` and `progress`, by contrast, always end with a flush even when
their message is suppressed. -/
theorem progress_meter_suppressed (env : Env) (s : St) (cur mn mx : ℚ) (len : ℤ)
    (caption msg : String) :
    ((check_params_loaded env s).1 = false ∨ env.showProgress = false →
      progress_meter env s cur mn mx len caption =
        ((check_params_loaded env s).2, Outcome.normal)) ∧
    (s.inited = true → env.showProgress = false →
      progress_meter env s cur mn mx len caption = (s, Outcome.normal)) ∧
    (debug env s msg).1.out.getLast? = some Out.flush ∧
    (progress env s msg).1.out.getLast? = some Out.flush := by
  have hsup : ((check_params_loaded env s).1 && env.showProgress) ≠ true →
      progress_meter env s cur mn mx len caption =
        ((check_params_loaded env s).2, Outcome.normal) := by
    intro h
    rw [progress_meter_eq, if_neg h]
  refine ⟨?_, ?_, ?_, ?_⟩
  · rintro (h | h)
    · exact hsup (by simp [h])
    · exact hsup (by simp [h])
  · intro hi hp
    rw [hsup (by simp [hp]), check_inited hi]
  · rw [debug_out]
    exact List.getLast?_concat _
  · rw [progress_out]
    exact List.getLast?_concat _

/-- C10 counterexample: in a fresh state whose loads fail, the gate fails, yet
`progress_meter` produces output and the stream is flushed (by the gate
warnings), so it is not a complete no-op. -/
theorem progress_meter_noop_cx :
    (check_params_loaded envFailAll stInit).1 = false ∧
    (progress_meter envFailAll stInit 1 0 2 20 "x").1.out ≠ [] ∧
    Out.flush ∈ (progress_meter envFailAll stInit 1 0 2 20 "x").1.out := by decide

/-- C10 witness: with an initialized state and the progress flag off the meter
is a complete no-op, while a suppressed `debug` still ends with a flush. -/
theorem progress_meter_suppressed_witness :
    stInited.inited = true ∧
    envNoProg.showProgress = false ∧
    progress_meter envNoProg stInited 1 0 2 20 "cap" = (stInited, Outcome.normal) ∧
    (debug envNoProg stInited "m").1.out.getLast? = some Out.flush :=
  ⟨rfl, rfl,
   (progress_meter_suppressed envNoProg stInited 1 0 2 20 "cap" "m").2.1 rfl rfl,
   (progress_meter_suppressed envNoProg stInited 1 0 2 20 "cap" "m").2.2.1⟩

lemma data_lb : "[".data = ['['] := rfl

lemma data_rbcr : "]\r".data = [']', '\r'] := rfl

lemma meter_nc_at_min {mn mx : ℚ} {len : ℤ} {c : ℕ} :
    (meterCounts mn mn mx len c).1 = 0 := by
  rw [meterCounts_fst, sub_self, mul_zero, zero_div,
    show (0 : ℚ) = ((0 : ℤ) : ℚ) by norm_num, ctrunc_intCast]

lemma meter_nc_at_max {mn mx : ℚ} {len : ℤ} {c : ℕ} (h1 : mn < mx) :
    (meterCounts mx mn mx len c).1 = len - (1 + (c : ℤ)) := by
  rw [meterCounts_fst, mul_div_assoc, div_self (sub_ne_zero.2 (ne_of_gt h1)),
    mul_one, ctrunc_intCast]

/-- C4 (amended): when the remaining width after the caption and the opening
bracket is nonnegative, the fill count equals the floor of
width-remaining times the completion ratio, the `|` characters of the
assembled line (beyond any in the caption itself) number exactly that; at
`current = min` the fill count is zero and at `current = max` it spans the
whole remaining width with no `-` characters.  For a negative remaining width
the emitted count is zero, not the (negative) floor value; see the
counterexample. -/
theorem meter_fill_count (cur mn mx : ℚ) (len : ℤ) (caption : String)
    (h1 : mn < mx) (h2 : mn ≤ cur) (h3 : cur ≤ mx)
    (h4 : 0 ≤ len - (1 + (caption.length : ℤ))) :
    (meterCounts cur mn mx len caption.length).1 =
      ⌊((len - (1 + (caption.length : ℤ)) : ℤ) : ℚ) * (cur - mn) / (mx - mn)⌋ ∧
    ((assembleMeter cur mn mx len caption).data.count '|' : ℤ) =
      ⌊((len - (1 + (caption.length : ℤ)) : ℤ) : ℚ) * (cur - mn) / (mx - mn)⌋ +
        (caption.data.count '|' : ℤ) ∧
    (cur = mn → (meterCounts cur mn mx len caption.length).1 = 0) ∧
    (cur = mx →
      (meterCounts cur mn mx len caption.length).1 = len - (1 + (caption.length : ℤ)) ∧
      (meterCounts cur mn mx len caption.length).2.toNat = 0) := by
  have hq : 0 ≤ ((len - (1 + (caption.length : ℤ)) : ℤ) : ℚ) * (cur - mn) / (mx - mn) := by
    rw [mul_div_assoc]
    exact mul_nonneg (by exact_mod_cast h4) (meter_ratio_nonneg h1 h2)
  have hfst : (meterCounts cur mn mx len caption.length).1 =
      ⌊((len - (1 + (caption.length : ℤ)) : ℤ) : ℚ) * (cur - mn) / (mx - mn)⌋ := by
    rw [meterCounts_fst]
    exact ctrunc_of_nonneg hq
  have hnn : 0 ≤ (meterCounts cur mn mx len caption.length).1 :=
    meter_nc_nonneg h1 h2 h4
  refine ⟨hfst, ?_, ?_, ?_⟩
  · rw [assembleMeter_count_bar]
    have hfst2 := hfst
    push_cast at hfst2 ⊢
    rw [Int.toNat_of_nonneg hnn, hfst2]
  · intro he
    subst he
    exact meter_nc_at_min
  · intro he
    subst he
    have hmax : (meterCounts cur mn cur len caption.length).1 =
        len - (1 + (caption.length : ℤ)) := meter_nc_at_max h1
    refine ⟨hmax, ?_⟩
    rw [meterCounts_snd, hmax]
    omega

/-- C4 counterexample: with caption `"Loading"`, width 0, min 0, max 100 and
current 100 the fill formula of the claim evaluates to -8, while the meter
emits zero `|` characters, so the claimed equality fails when the remaining
width is negative. -/
theorem meter_fill_count_cx :
    ((0 : ℚ) < 100) ∧ ((0 : ℚ) ≤ 100) ∧ ((100 : ℚ) ≤ 100) ∧
    (assembleMeter 100 0 100 0 "Loading").data.count '|' = 0 ∧
    ⌊(((0 : ℤ) - (1 + ("Loading".length : ℤ)) : ℤ) : ℚ) * ((100 : ℚ) - 0) / ((100 : ℚ) - 0)⌋
      = -8 ∧
    ((0 : ℤ) ≠ -8) := by
  have hm : meterCounts 100 0 100 0 ("Loading".length) = (-8, -1) := by
    rw [show "Loading".length = 7 from rfl]
    have hq : (((0 : ℤ) : ℚ) - (1 + ((7 : ℕ) : ℚ))) * ((100 : ℚ) - 0) / ((100 : ℚ) - 0)
        = ((-8 : ℤ) : ℚ) := by
      push_cast
      norm_num
    rw [meterCounts_eval hq]
    decide
  have hcast : (((0 : ℤ) - (1 + ("Loading".length : ℤ)) : ℤ) : ℚ) * ((100 : ℚ) - 0) /
      ((100 : ℚ) - 0) = ((-8 : ℤ) : ℚ) := by
    rw [show "Loading".length = 7 from rfl]
    push_cast
    norm_num
  refine ⟨by decide, by decide, by decide, ?_, ?_, by decide⟩
  · rw [assembleMeter_count_bar, hm]
    decide
  · rw [hcast, Int.floor_intCast]

/-- C4 witness at caption `"Loading"`, width 20, min 0, max 100, current 50. -/
theorem meter_fill_count_witness :
    ((0 : ℚ) < 100) ∧ ((0 : ℚ) ≤ 50) ∧ ((50 : ℚ) ≤ 100) ∧
    (0 ≤ (20 : ℤ) - (1 + ("Loading".length : ℤ))) ∧
    ((meterCounts 50 0 100 20 "Loading".length).1 =
      ⌊(((20 : ℤ) - (1 + ("Loading".length : ℤ)) : ℤ) : ℚ) * ((50 : ℚ) - 0) / ((100 : ℚ) - 0)⌋ ∧
    ((assembleMeter 50 0 100 20 "Loading").data.count '|' : ℤ) =
      ⌊(((20 : ℤ) - (1 + ("Loading".length : ℤ)) : ℤ) : ℚ) * ((50 : ℚ) - 0) / ((100 : ℚ) - 0)⌋ +
        ("Loading".data.count '|' : ℤ) ∧
    ((50 : ℚ) = 0 → (meterCounts 50 0 100 20 "Loading".length).1 = 0) ∧
    ((50 : ℚ) = 100 →
      (meterCounts 50 0 100 20 "Loading".length).1 = 20 - (1 + ("Loading".length : ℤ)) ∧
      (meterCounts 50 0 100 20 "Loading".length).2.toNat = 0)) :=
  ⟨by decide, by decide, by decide, by decide,
   meter_fill_count 50 0 100 20 "Loading" (by decide) (by decide) (by decide) (by decide)⟩

/-- C5 (amended): under the claim hypotheses the character budget of the
assembled line without the two carriage returns never exceeds the requested
width plus one; the one-character overshoot is reached at `current = max`, so
the bound `width` itself is not valid (see the counterexample). -/
theorem meter_width_budget (cur mn mx : ℚ) (len : ℤ) (caption : String)
    (h1 : mn < mx) (h2 : mn ≤ cur) (h3 : cur ≤ mx)
    (h4 : (caption.length : ℤ) + 2 ≤ len) :
    ((assembleMeter cur mn mx len caption).length : ℤ) - 2 ≤ len + 1 := by
  have hR : 0 ≤ len - (1 + (caption.length : ℤ)) := by omega
  have hnn := meter_nc_nonneg h1 h2 hR
  have hle := meter_nc_le h1 h2 h3 hR
  have hsnd := meterCounts_snd cur mn mx len caption.length
  have hlen := assembleMeter_length cur mn mx len caption
  omega

/-- C5 counterexample: caption `"Loading"`, width 20, min 0, max 100,
current 100: the line holds 21 visible characters (23 minus the two carriage
returns), exceeding the requested width 20. -/
theorem meter_width_budget_cx :
    ((0 : ℚ) < 100) ∧ ((0 : ℚ) ≤ 100) ∧ ((100 : ℚ) ≤ 100) ∧
    (("Loading".length : ℤ) + 2 ≤ 20) ∧
    (assembleMeter 100 0 100 20 "Loading").length = 23 ∧
    ¬ (((assembleMeter 100 0 100 20 "Loading").length : ℤ) - 2 ≤ 20) := by
  have hm : meterCounts 100 0 100 20 ("Loading".length) = (12, -1) := by
    rw [show "Loading".length = 7 from rfl]
    have hq : (((20 : ℤ) : ℚ) - (1 + ((7 : ℕ) : ℚ))) * ((100 : ℚ) - 0) / ((100 : ℚ) - 0)
        = ((12 : ℤ) : ℚ) := by
      push_cast
      norm_num
    rw [meterCounts_eval hq]
    decide
  have hl : (assembleMeter 100 0 100 20 "Loading").length = 23 := by
    rw [assembleMeter_length, hm]
    decide
  exact ⟨by decide, by decide, by decide, by decide, hl, by rw [hl]; decide⟩

/-- C5 witness at caption `"Loading"`, width 20, min 0, max 100, current 100. -/
theorem meter_width_budget_witness :
    ((0 : ℚ) < 100) ∧ ((0 : ℚ) ≤ 100) ∧ ((100 : ℚ) ≤ 100) ∧
    (("Loading".length : ℤ) + 2 ≤ 20) ∧
    ((assembleMeter 100 0 100 20 "Loading").length : ℤ) - 2 ≤ 20 + 1 :=
  ⟨by decide, by decide, by decide, by decide,
   meter_width_budget 100 0 100 20 "Loading" (by decide) (by decide) (by decide) (by decide)⟩

/-- C9 (amended): for an in-range `current` (`min <= current <= max`,
`min < max`) and a width smaller than the caption length, the remaining width
is negative, neither loop body runs, and the line degrades to the caption with
an empty bracket pair.  Without the range hypothesis on `current` the claim
fails; see the counterexample. -/
theorem meter_narrow_width (cur mn mx : ℚ) (len : ℤ) (caption : String)
    (h1 : mn < mx) (h2 : mn ≤ cur) (h3 : cur ≤ mx)
    (h4 : len < (caption.length : ℤ)) :
    len - (1 + (caption.length : ℤ)) < 0 ∧
    (meterCounts cur mn mx len caption.length).1.toNat = 0 ∧
    (meterCounts cur mn mx len caption.length).2.toNat = 0 ∧
    assembleMeter cur mn mx len caption = "\r" ++ caption ++ "[" ++ "]\r" := by
  have hR : len - (1 + (caption.length : ℤ)) ≤ 0 := by omega
  have hnp := meter_nc_nonpos h1 h2 hR
  have hge := meter_R_le_nc h1 h2 h3 hR
  have hsnd := meterCounts_snd cur mn mx len caption.length
  have hz1 : (meterCounts cur mn mx len caption.length).1.toNat = 0 := by omega
  have hz2 : (meterCounts cur mn mx len caption.length).2.toNat = 0 := by omega
  refine ⟨by omega, hz1, hz2, ?_⟩
  refine String.ext ?_
  rw [assembleMeter_data, hz1, hz2]
  simp [String.data_append, data_cr, data_lb, data_rbcr]

/-- C9 counterexample: width 0 is smaller than the caption length 7 and
`min < max` holds, but with the out-of-range `current = 200` the unfilled loop
runs seven times: the meter draws `[-------]`, not an empty bar. -/
theorem meter_narrow_width_cx :
    envOkAll.showProgress = true ∧ ((0 : ℚ) < 100) ∧
    ((0 : ℤ) < ("Loading".length : ℤ)) ∧
    (progress_meter envOkAll stInited 200 0 100 0 "Loading").1.out =
      [Out.writeFmt "\rLoading[-------]\r", Out.flush] ∧
    "\rLoading[-------]\r".data.count '-' = 7 := by
  have hm : meterCounts 200 0 100 0 ("Loading".length) = (-16, 7) := by
    rw [show "Loading".length = 7 from rfl]
    have hq : (((0 : ℤ) : ℚ) - (1 + ((7 : ℕ) : ℚ))) * ((200 : ℚ) - 0) / ((100 : ℚ) - 0)
        = ((-16 : ℤ) : ℚ) := by
      push_cast
      norm_num
    rw [meterCounts_eval hq]
    decide
  have ha : assembleMeter 200 0 100 0 "Loading" = "\rLoading[-------]\r" := by
    refine String.ext ?_
    rw [assembleMeter_data, hm]
    decide
  refine ⟨rfl, by decide, by decide, ?_, by decide⟩
  rw [progress_meter_eq, check_inited (rfl : stInited.inited = true), ha]
  simp [emit, stInited, envOkAll]

/-- C9 witness at caption `"Loading"`, width 0, min 0, max 100, current 50. -/
theorem meter_narrow_width_witness :
    ((0 : ℚ) < 100) ∧ ((0 : ℚ) ≤ 50) ∧ ((50 : ℚ) ≤ 100) ∧
    ((0 : ℤ) < ("Loading".length : ℤ)) ∧
    ((0 : ℤ) - (1 + ("Loading".length : ℤ)) < 0 ∧
      (meterCounts 50 0 100 0 "Loading".length).1.toNat = 0 ∧
      (meterCounts 50 0 100 0 "Loading".length).2.toNat = 0 ∧
      assembleMeter 50 0 100 0 "Loading" = "\r" ++ "Loading" ++ "[" ++ "]\r") :=
  ⟨by decide, by decide, by decide, by decide,
   meter_narrow_width 50 0 100 0 "Loading" (by decide) (by decide) (by decide) (by decide)⟩

/-- C8 (code bug): the enabled meter hands the assembled buffer to `fprintf`
as its FORMAT string in one call followed by a flush.  A caption that contains
a single `%` (here the formatted caption `"50% done"`) therefore does not
print literally: `fprintf` re-interprets the `%` as a conversion specification
with no matching argument (`printfNoArgs` is undefined, `none`), while a
percent-free caption round-trips exactly. -/
theorem progress_meter_format_string_bug :
    (progress_meter envOkAll stInited 1 0 2 21 "50% done").1.out =
      [Out.writeFmt "\r50% done[||||||-----]\r", Out.flush] ∧
    "\r50% done[||||||-----]\r".data.count '%' = 1 ∧
    printfNoArgs "\r50% done[||||||-----]\r" = none ∧
    printfNoArgs "\rLoading[||||||-----]\r" = some "\rLoading[||||||-----]\r" := by
  have hm : meterCounts 1 0 2 21 ("50% done".length) = (6, 5) := by
    rw [show "50% done".length = 8 from rfl]
    have hq : (((21 : ℤ) : ℚ) - (1 + ((8 : ℕ) : ℚ))) * ((1 : ℚ) - 0) / ((2 : ℚ) - 0)
        = ((6 : ℤ) : ℚ) := by
      push_cast
      norm_num
    rw [meterCounts_eval hq]
    decide
  have ha : assembleMeter 1 0 2 21 "50% done" = "\r50% done[||||||-----]\r" := by
    refine String.ext ?_
    rw [assembleMeter_data, hm]
    decide
  refine ⟨?_, by decide, by decide, by decide⟩
  rw [progress_meter_eq, check_inited (rfl : stInited.inited = true), ha]
  simp [emit, stInited, envOkAll]

end Whisk
